import Mathlib

/-!
# Verification of the Deoxys node core against its specification

Shallow embedding of the parts of the Deoxys/Madara full-node code base that
the specification claims speak about, together with theorems settling each
claim.  Every definition is translated from the Rust source file named in its
doc comment; machine integers are modelled as `Nat` with explicit `% 2 ^ w`
where fixed-width truncation matters, fallible code returns `Except`/`Option`,
and stateful loops are modelled by explicit state passing.
-/

/-! ## L1→L2 messaging worker
Source: `crates/madara/client/settlement_client/src/messaging.rs`. -/

namespace Messaging

/-- Field elements are opaque values for the messaging worker; we model them
as naturals. -/
abbrev Felt := Nat

/-- `CommonMessagingEventData` (messaging.rs, lines 14–26). -/
structure CommonMessagingEventData where
  from_addr : Felt
  to_address : Felt
  selector : Felt
  nonce : Felt
  payload : List Felt
  fee : Option Nat
  transaction_hash : Felt
  message_hash : Option Felt
  block_number : Nat
  event_index : Option Nat
deriving Repr, DecidableEq

/-- `L1HandlerTransaction` — the fields the worker reads/writes
(`starknet_api::transaction::L1HandlerTransaction`). -/
structure L1HandlerTransaction where
  nonce : Felt
  contract_address : Felt
  entry_point_selector : Felt
  calldata : List Felt
  version : Felt
deriving Repr, DecidableEq

/-- `LastSyncedEventBlock` (`mc_db::l1_db`): resume cursor
`(block_number, event_index)`. -/
structure LastSyncedEventBlock where
  block_number : Nat
  event_index : Nat
deriving Repr, DecidableEq

/-- The backend/mempool state the messaging worker reads and writes:
the `L1MessagingNonces` set, the resume cursor, and the list of L1-handler
transactions accepted by the mempool (`tx_accept_l1_handler` calls, newest
last, recorded by their nonce). -/
structure WorkerState where
  nonces : List Felt
  lastSynced : LastSyncedEventBlock
  mempool : List Felt
deriving Repr, DecidableEq

/-- `backend.has_l1_messaging_nonce` -/
def hasL1MessagingNonce (st : WorkerState) (n : Felt) : Bool :=
  st.nonces.contains n

/-- `backend.set_l1_messaging_nonce` -/
def setL1MessagingNonce (st : WorkerState) (n : Felt) : WorkerState :=
  { st with nonces := n :: st.nonces }

/-- `parse_handle_message_transaction` (messaging.rs, lines 128–143):
calldata is `from` followed by the payload; nonce, contract address and
selector come from the event.  (The `ContractAddress::try_from` range check
lives in the external `starknet_api` crate; all inputs considered here are in
range.) -/
def parse_handle_message_transaction (event : CommonMessagingEventData) :
    L1HandlerTransaction :=
  { nonce := event.nonce
    contract_address := event.to_address
    entry_point_selector := event.selector
    calldata := event.from_addr :: event.payload
    version := 0 }

/-- `handle_cancelled_message` (messaging.rs, lines 114–126): record the nonce
as consumed unless it already is. -/
def handle_cancelled_message (st : WorkerState) (nonce : Felt) : WorkerState :=
  if hasL1MessagingNonce st nonce then st
  else setL1MessagingNonce st nonce

/-- `process_message` (messaging.rs, lines 145–173): if the nonce is already
recorded return `none` (no submission); otherwise record it, submit the
transaction to the mempool, and return the transaction hash.  We record
mempool submissions by the transaction's nonce. -/
def process_message (st : WorkerState) (event : CommonMessagingEventData) :
    Option Felt × WorkerState :=
  let transaction := parse_handle_message_transaction event
  let tx_nonce := transaction.nonce
  if hasL1MessagingNonce st tx_nonce then
    (none, st)
  else
    let st := setL1MessagingNonce st tx_nonce
    let st := { st with mempool := st.mempool ++ [tx_nonce] }
    (some event.transaction_hash, st)

/-- One stream item, as the worker sees it: `Option<anyhow::Result<event>>`.
`none` items are skipped by the `if let Some(event) = event_result` guard. -/
abbrev StreamItem := Option (Except String CommonMessagingEventData)

/-- The event-processing loop of `sync` (messaging.rs, lines 54–111), run to
completion on a finite stream.  `getHash` is the settlement client's
`get_messaging_hash` and `cancelTs` its `get_l1_to_l2_message_cancellations`.
Faithfully to the source:
* a stream item that is `none` is skipped and the loop continues;
* a stream error propagates (`let event_data = event?`);
* if the nonce is already recorded, the function does `return Ok(())` —
  terminating the whole loop, not `continue`;
* if the cancellation timestamp is nonzero, `handle_cancelled_message` runs
  and then the function does `return Ok(())` — again terminating the loop,
  without touching the cursor;
* otherwise `process_message` runs; on `Some(tx_hash)` the cursor is advanced
  to `(block_number, event_index.unwrap_or(0))` and the loop continues. -/
def syncLoop (getHash : CommonMessagingEventData → Felt) (cancelTs : Felt → Felt) :
    List StreamItem → WorkerState → Except String WorkerState
  | [], st => .ok st
  | none :: rest, st => syncLoop getHash cancelTs rest st
  | some (.error e) :: _, _ => .error e
  | some (.ok event_data) :: rest, st =>
    let tx := parse_handle_message_transaction event_data
    let tx_nonce := tx.nonce
    -- "Skip if already processed"
    if hasL1MessagingNonce st tx_nonce then
      .ok st
    else
      let event_hash := getHash event_data
      let cancellation_timestamp := cancelTs event_hash
      if cancellation_timestamp ≠ 0 then
        .ok (handle_cancelled_message st tx_nonce)
      else
        match process_message st event_data with
        | (some _, st) =>
          let block_sent : LastSyncedEventBlock :=
            { block_number := event_data.block_number
              event_index := event_data.event_index.getD 0 }
          syncLoop getHash cancelTs rest { st with lastSynced := block_sent }
        | (none, st) => syncLoop getHash cancelTs rest st

/-- A concrete event used in counterexample runs. -/
def mkEvent (nonce : Felt) (blockNumber : Nat) : CommonMessagingEventData :=
  { from_addr := 123
    to_address := 456
    selector := 789
    nonce := nonce
    payload := [1, 2]
    fee := some 1000
    transaction_hash := 1
    message_hash := none
    block_number := blockNumber
    event_index := some 0 }

end Messaging

/-! ## L1 gas-price worker
Source: `crates/client/eth/src/l1_gas_price.rs`. -/

namespace GasPrice

/-- `GasPrices` (`dp_block::header::GasPrices`) — the four price fields the
worker can touch; `update_gas_price` writes only the two ETH fields. -/
structure GasPrices where
  eth_l1_gas_price : Nat
  strk_l1_gas_price : Nat
  eth_l1_data_gas_price : Nat
  strk_l1_data_gas_price : Nat
deriving Repr, DecidableEq

/-- The part of the `eth_feeHistory` response that `update_gas_price` reads. -/
structure FeeHistory where
  base_fee_per_gas : List Nat
  base_fee_per_blob_gas : List Nat
deriving Repr, DecidableEq

/-- Outcome of one call to `update_gas_price`
(l1_gas_price.rs, lines 110–138):
* `panicked` — the division `sum / len` ran with `len = 0` (integer division
  by zero panics in Rust);
* `errored` — a fallible step returned `Err` (e.g. the
  `.context("Setting l1 last confirmed block number")?` on an empty
  `last()`);
* `ok` — the two ETH price fields were written. -/
inductive UpdateOutcome where
  | panicked : UpdateOutcome
  | errored : String → UpdateOutcome
  | ok : GasPrices → UpdateOutcome
deriving Repr, DecidableEq

/-- `update_gas_price` (l1_gas_price.rs, lines 110–138).  The trailing window
is `split_at(len.max(300) - 300).1`, i.e. the last 300 entries (the whole
list when it is shorter).  The average divides by the window length with no
zero guard; `eth_l1_gas_price` is set from `base_fee_per_blob_gas.last()`
(the `base_fee_per_gas` list is never read). -/
def update_gas_price (fee_history : FeeHistory) (gas_price : GasPrices) :
    UpdateOutcome :=
  let blob_fee_history_one_hour :=
    fee_history.base_fee_per_blob_gas.drop
      (max fee_history.base_fee_per_blob_gas.length 300 - 300)
  if blob_fee_history_one_hour.length = 0 then .panicked
  else
    let avg_blob_base_fee :=
      blob_fee_history_one_hour.sum / blob_fee_history_one_hour.length
    match fee_history.base_fee_per_blob_gas.getLast? with
    | none => .errored "Setting l1 last confirmed block number"
    | some eth_gas_price =>
      .ok { gas_price with
              eth_l1_gas_price := eth_gas_price
              eth_l1_data_gas_price := avg_blob_base_fee }

/-- Outcome of one iteration of the `gas_price_worker` loop
(l1_gas_price.rs, lines 79–107), after the `update_gas_price` attempt (whose
`Err` is logged and swallowed, lines 80–83):
* `panicked` — the staleness check fired (`panic!("Gas prices have not been
  updated for {} ms. ...")`, lines 94–100);
* `errored` — the worker returned `Err(...)`; no branch of the source
  produces this;
* `returnedOk` — `!infinite_loop`, so the worker returns `Ok(())`;
* `continues` — the worker sleeps `poll_time` and loops again. -/
inductive IterOutcome where
  | panicked : Nat → IterOutcome
  | errored : String → IterOutcome
  | returnedOk : IterOutcome
  | continues : IterOutcome
deriving Repr, DecidableEq

/-- One iteration of the `gas_price_worker` loop (l1_gas_price.rs, lines
79–107): `last_update_timestamp` and `current_timestamp` are the two
millisecond clock reads, `poll_time` is
`gas_price_poll_ms.unwrap_or(10_000)`. -/
def gas_price_worker_iteration (poll_time : Nat)
    (last_update_timestamp current_timestamp : Nat) (infinite_loop : Bool) :
    IterOutcome :=
  if current_timestamp - last_update_timestamp > 10 * poll_time then
    .panicked (current_timestamp - last_update_timestamp)
  else if !infinite_loop then .returnedOk
  else .continues

/-- Does the outcome return an error value? -/
def IterOutcome.isErrorReturn : IterOutcome → Bool
  | .errored _ => true
  | _ => false

/-- Is the outcome a panic? -/
def IterOutcome.isPanic : IterOutcome → Bool
  | .panicked _ => true
  | _ => false

/-- Is the update outcome a successful write? -/
def UpdateOutcome.isOk : UpdateOutcome → Bool
  | .ok _ => true
  | _ => false

end GasPrice

/-! ## Class database read path
Source: `crates/client/db/src/class_db.rs`. -/

namespace ClassDb

/-- Class hashes are opaque field elements. -/
abbrev Felt := Nat

/-- Class metadata payloads are opaque to the read path. -/
abbrev ClassInfo := Nat

/-- `DbBlockId` (`crate::db_block_id`): a resolved block id, either the
pending block or a confirmed block number. -/
inductive DbBlockId where
  | pending : DbBlockId
  | blockN : Nat → DbBlockId
deriving Repr, DecidableEq

/-- `DbBlockId::is_pending`. -/
def DbBlockId.isPendingB : DbBlockId → Bool
  | .pending => true
  | .blockN _ => false

/-- The two class-info columns.  Each value is a `ClassInfoWithBlockNumber`,
i.e. the class info together with the `DbBlockId` it was declared at
(class_db.rs, lines 15–19): entries written by `class_db_store_block` carry
`BlockN`, entries written by `class_db_store_pending` carry `Pending`. -/
structure Columns where
  pendingClassInfo : Felt → Option (ClassInfo × DbBlockId)
  classInfo : Felt → Option (ClassInfo × DbBlockId)

/-- `class_db_get_encoded_kv` (class_db.rs, lines 22–47): read the pending
column first when the query is pending, then fall back to the non-pending
column. -/
def class_db_get_encoded_kv (db : Columns) (is_pending : Bool) (key : Felt) :
    Option (ClassInfo × DbBlockId) :=
  if is_pending then
    match db.pendingClassInfo key with
    | some res => some res
    | none => db.classInfo key
  else db.classInfo key

/-- `get_class_info` (class_db.rs, lines 49–81), taking the already-resolved
block id (`resolve_db_block_id` happens in `db_block_id.rs`): fetch the
stored `ClassInfoWithBlockNumber` and keep it only if the visibility match
succeeds — a pending query accepts anything, a numeric query `BlockN n`
accepts `BlockN real_block_n` iff `real_block_n ≤ n`, and every other pairing
is rejected. -/
def get_class_info (db : Columns) (requested_id : DbBlockId) (class_hash : Felt) :
    Option ClassInfo :=
  match class_db_get_encoded_kv db requested_id.isPendingB class_hash with
  | none => none
  | some info =>
    let valid :=
      match requested_id, info.2 with
      | .pending, _ => true
      | .blockN block_n, .blockN real_block_n => real_block_n ≤ block_n
      | _, _ => false
    if valid then some info.1 else none

end ClassDb

/-! ## `starknet_getStorageAt`
Source: `crates/client/rpc/src/methods/read/get_storage_at.rs`. -/

namespace GetStorageAt

abbrev Felt := Nat

/-- `starknet_core::types::BlockId`. -/
inductive BlockId where
  | pending : BlockId
  | latest : BlockId
  | number : Nat → BlockId
  | hash : Felt → BlockId
deriving Repr, DecidableEq

/-- The error variants of `StarknetRpcApiError` this method can surface. -/
inductive StarknetRpcApiError where
  | blockNotFound : StarknetRpcApiError
  | contractNotFound : StarknetRpcApiError
  | internalServerError : StarknetRpcApiError
deriving Repr, DecidableEq

/-- The three backend reads `get_storage_at` performs, as pure lookups
(their `Err`/`or_internal_server_error` paths are storage-corruption faults,
out of scope of the precedence rule). -/
structure Backend where
  containsBlock : BlockId → Bool
  getContractClassHashAt : BlockId → Felt → Option Felt
  getContractStorageAt : BlockId → Felt → Felt → Option Felt

/-- `get_storage_at` (get_storage_at.rs, lines 35–62): block existence is
checked first (else `BlockNotFound`), then contract existence via
`get_contract_class_hash_at` (else `ContractNotFound`), then the stored value
with `unwrap_or(Felt::ZERO)`. -/
def get_storage_at (starknet : Backend) (contract_address key : Felt)
    (block_id : BlockId) : Except StarknetRpcApiError Felt :=
  let block_exists := starknet.containsBlock block_id
  if !block_exists then .error .blockNotFound
  else
    match starknet.getContractClassHashAt block_id contract_address with
    | none => .error .contractNotFound
    | some _ =>
      .ok ((starknet.getContractStorageAt block_id contract_address key).getD 0)

end GetStorageAt

/-! ## State-root computation
Source: `crates/client/sync/src/commitments/lib.rs`. -/

namespace Commitments

/-- The Stark prime `2^251 + 17·2^192 + 1` (the `Felt` modulus). -/
def STARK_PRIME : Nat := 2 ^ 251 + 17 * 2 ^ 192 + 1

/-- Field elements. -/
abbrev Felt := Nat

/-- Big-endian byte-slice → field element, as `Felt252Wrapper::try_from`
reads `"STARKNET_STATE_V0".as_bytes()` (17 ASCII bytes, far below the
modulus). -/
def feltOfBeBytes (bytes : List Nat) : Felt :=
  (bytes.foldl (fun acc b => acc * 256 + b) 0) % STARK_PRIME

/-- `Felt252Wrapper::try_from("STARKNET_STATE_V0".as_bytes()).unwrap()`
(commitments/lib.rs, line 127). -/
def starknet_state_tag : Felt :=
  feltOfBeBytes (("STARKNET_STATE_V0".toList).map Char.toNat)

/-- `calculate_state_root` (commitments/lib.rs, lines 120–137), generic over
the hasher `H` exactly as the Rust function is generic over `H: HasherT`
(`update_state_root`, line 160, instantiates it with `PoseidonHasher`):
if the classes-trie root is zero the contracts-trie root is returned
unhashed, else `H` is applied to
`[starknet_state_tag, contracts_root, classes_root]`. -/
def calculate_state_root (H : List Felt → Felt)
    (contracts_trie_root classes_trie_root : Felt) : Felt :=
  if classes_trie_root = 0 then contracts_trie_root
  else H [starknet_state_tag, contracts_trie_root, classes_trie_root]

end Commitments

/-! ## V3 transaction gas-fields hash
Source: `crates/primitives/transactions/src/compute_hash.rs`. -/

namespace ComputeHash

abbrev Felt := Nat

/-- `b"L1_GAS"` (compute_hash.rs, line 23). -/
def L1_GAS : List Nat := [0x4c, 0x31, 0x5f, 0x47, 0x41, 0x53]

/-- `b"L2_GAS"` (compute_hash.rs, line 24). -/
def L2_GAS : List Nat := [0x4c, 0x32, 0x5f, 0x47, 0x41, 0x53]

/-- `starknet_api::transaction::ResourceBounds`: `max_amount: u64`,
`max_price_per_unit: u128`.  Modelled as naturals; the fixed widths reappear
in the byte conversions below. -/
structure ResourceBounds where
  max_amount : Nat
  max_price_per_unit : Nat
deriving Repr, DecidableEq

/-- `starknet_api::transaction::ResourceBoundsMapping` restricted to the two
resources the hash reads (`l1_gas`, `l2_gas`). -/
structure ResourceBoundsMapping where
  l1_gas : ResourceBounds
  l2_gas : ResourceBounds
deriving Repr, DecidableEq

/-- `DataAvailabilityMode` (`L1` / `L2`). -/
inductive DataAvailabilityMode where
  | L1 : DataAvailabilityMode
  | L2 : DataAvailabilityMode
deriving Repr, DecidableEq

/-- Big-endian fixed-width byte string of a natural: `w` bytes, most
significant first.  `natToBeBytes 8` is `u64::to_be_bytes`, `natToBeBytes 16`
is `u128::to_be_bytes` (the width cap makes the truncation `% 2^(8·w)` of the
machine integer explicit). -/
def natToBeBytes : Nat → Nat → List Nat
  | 0, _ => []
  | w + 1, n => natToBeBytes w (n / 256) ++ [n % 256]

/-- `buffer[i..i+xs.len()].copy_from_slice(xs)` on a byte buffer modelled as
a list. -/
def setSlice (buffer : List Nat) (i : Nat) (xs : List Nat) : List Nat :=
  buffer.take i ++ xs ++ buffer.drop (i + xs.length)

/-- `Felt::from_bytes_be(&buffer)`: big-endian 32-byte buffer to field
element (reduced modulo the Stark prime). -/
def feltFromBytesBe (buffer : List Nat) : Felt :=
  (buffer.foldl (fun acc b => acc * 256 + b) 0) % Commitments.STARK_PRIME

/-- `prepare_resource_bound_value` (compute_hash.rs, lines 380–398): a 32-byte
zero buffer with `[2..8]` the resource tag, `[8..16]` the `u64` max amount
big-endian, `[16..32]` the `u128` max price per unit big-endian, read as a
big-endian felt. -/
def prepare_resource_bound_value (resource_bounds_mapping : ResourceBoundsMapping)
    (da_mode : DataAvailabilityMode) : Felt :=
  let buffer := List.replicate 32 0
  let buffer := setSlice buffer 2
    (match da_mode with
     | .L1 => L1_GAS
     | .L2 => L2_GAS)
  let resource_bounds :=
    match da_mode with
    | .L1 => resource_bounds_mapping.l1_gas
    | .L2 => resource_bounds_mapping.l2_gas
  let buffer := setSlice buffer 8 (natToBeBytes 8 resource_bounds.max_amount)
  let buffer := setSlice buffer 16 (natToBeBytes 16 resource_bounds.max_price_per_unit)
  feltFromBytesBe buffer

/-- `compute_gas_hash` (compute_hash.rs, lines 368–376), generic over the
Poseidon array hash (`Poseidon::hash_array`): hash of
`[tip, enc(L1_GAS), enc(L2_GAS)]`.  `tip` is a `u64`, embedded exactly. -/
def compute_gas_hash (poseidonHashArray : List Felt → Felt) (tip : Nat)
    (resource_bounds : ResourceBoundsMapping) : Felt :=
  let gas_as_felt :=
    [tip,
     prepare_resource_bound_value resource_bounds .L1,
     prepare_resource_bound_value resource_bounds .L2]
  poseidonHashArray gas_as_felt

end ComputeHash

/-! ## Service monitor indexing
Source: `crates/primitives/utils/src/service.rs`. -/

namespace ServiceMonitor

/-- `SERVICE_COUNT` (service.rs, line 163): the length of the
`services: [Option<Box<dyn Service>>; SERVICE_COUNT]` array. -/
def SERVICE_COUNT : Nat := 8

/-- `MadaraService` (service.rs, lines 168–178) with its discriminant
values. -/
inductive MadaraService where
  | monitor : MadaraService
  | database : MadaraService
  | l1Sync : MadaraService
  | l2Sync : MadaraService
  | blockProduction : MadaraService
  | rpcUser : MadaraService
  | rpcAdmin : MadaraService
  | gateway : MadaraService
  | telemetry : MadaraService
deriving Repr, DecidableEq, Fintype

/-- The numeric value of each service id (`svc as u8` / `svc as usize`):
`Monitor = 0, Database = 1, L1Sync = 2, L2Sync = 4, BlockProduction = 8,
RpcUser = 16, RpcAdmin = 32, Gateway = 64, Telemetry = 128`. -/
def MadaraService.value : MadaraService → Nat
  | .monitor => 0
  | .database => 1
  | .l1Sync => 2
  | .l2Sync => 4
  | .blockProduction => 8
  | .rpcUser => 16
  | .rpcAdmin => 32
  | .gateway => 64
  | .telemetry => 128

/-- `u8::leading_zeros` of a byte value (`n < 256`): 8 for zero, else
`7 - log2 n`.  (`.to_be()` on a `u8` is the identity.) -/
def leadingZeros8 (n : Nat) : Nat :=
  if n % 256 = 0 then 8 else 7 - Nat.log2 (n % 256)

/-- The index `ServiceMonitor::with` stores a service at (service.rs, line
739): `(svc.id() as u8).to_be().leading_zeros() as usize`. -/
def withIndex (svc : MadaraService) : Nat :=
  leadingZeros8 svc.value

/-- The index the restart branch of `ServiceMonitor::start` looks a service
up at (service.rs, line 797): `self.services[svc as usize]`. -/
def restartIndex (svc : MadaraService) : Nat :=
  svc.value

end ServiceMonitor

/-! ## Helper lemmas for the byte-buffer encoding -/

namespace ComputeHash

theorem natToBeBytes_length (w n : Nat) : (natToBeBytes w n).length = w := by
  induction w generalizing n with
  | zero => rfl
  | succ w ih => simp [natToBeBytes, ih]

theorem foldl_natToBeBytes (w n acc : Nat) :
    List.foldl (fun a b => a * 256 + b) acc (natToBeBytes w n) =
      acc * 256 ^ w + n % 256 ^ w := by
  induction w generalizing n acc with
  | zero => simp [natToBeBytes, Nat.mod_one]
  | succ w ih =>
    rw [natToBeBytes, List.foldl_append, ih]
    simp only [List.foldl]
    have h : n % 256 ^ (w + 1) = 256 * (n / 256 % 256 ^ w) + n % 256 := by
      rw [pow_succ, Nat.mul_comm (256 ^ w) 256, Nat.mod_mul]; ring
    rw [h, pow_succ]; ring

/-- The three slice writes of `prepare_resource_bound_value` produce the
concatenation `00 ‖ tag ‖ be8(max_amount) ‖ be16(max_price_per_unit)`. -/
theorem buffer_shape (tag : List Nat) (htag : tag.length = 6) (a p : Nat) :
    setSlice (setSlice (setSlice (List.replicate 32 0) 2 tag) 8 (natToBeBytes 8 a))
        16 (natToBeBytes 16 p) =
      ([0, 0] ++ tag) ++ natToBeBytes 8 a ++ natToBeBytes 16 p := by
  have la : (natToBeBytes 8 a).length = 8 := natToBeBytes_length 8 a
  have lp : (natToBeBytes 16 p).length = 16 := natToBeBytes_length 16 p
  have h1 : setSlice (List.replicate 32 0) 2 tag = [0, 0] ++ tag ++ List.replicate 24 0 := by
    simp only [setSlice, htag, List.take_replicate, List.drop_replicate]
    norm_num
    rfl
  rw [h1]
  simp only [setSlice, la, lp]
  have h2 : (([0, 0] : List Nat) ++ tag ++ List.replicate 24 0).take 8 = [0, 0] ++ tag := by
    rw [List.append_assoc, List.take_append_eq_append_take]
    simp [htag]
  have h3 : (([0, 0] : List Nat) ++ tag ++ List.replicate 24 0).drop 16 = List.replicate 16 0 := by
    rw [List.append_assoc, List.drop_append_eq_append_drop, List.drop_append_eq_append_drop]
    simp [htag, List.drop_replicate]
  rw [h2, h3]
  have h4 : ((([0, 0] : List Nat) ++ tag) ++ natToBeBytes 8 a ++ List.replicate 16 0).take 16 =
      ([0, 0] ++ tag) ++ natToBeBytes 8 a := by
    rw [List.take_append_eq_append_take]
    have hl : (([0, 0] : List Nat) ++ tag ++ natToBeBytes 8 a).length = 16 := by
      simp [htag, la]
    rw [hl]
    have hfull : List.take 16 (([0, 0] : List Nat) ++ tag ++ natToBeBytes 8 a) =
        ([0, 0] : List Nat) ++ tag ++ natToBeBytes 8 a :=
      List.take_of_length_le (le_of_eq hl)
    simp [hfull, htag, la]
  have h5 : ((([0, 0] : List Nat) ++ tag) ++ natToBeBytes 8 a ++ List.replicate 16 0).drop 32 = [] := by
    apply List.drop_eq_nil_of_le
    simp [htag, la]
  rw [h4, h5]
  simp

/-- Value of the packed buffer as a big-endian felt: the tag lands at weight
`2^192`, the max amount at weight `2^128`, the max price at weight 1, and the
result is below the Stark prime so the reduction is the identity. -/
theorem enc_fold (tag : List Nat) (tv a p : Nat)
    (htv : List.foldl (fun acc b => acc * 256 + b) 0 ([0, 0] ++ tag) = tv)
    (htvb : tv < 2 ^ 48) (ha : a < 2 ^ 64) (hp : p < 2 ^ 128) :
    (List.foldl (fun acc b => acc * 256 + b) 0
        (([0, 0] ++ tag) ++ natToBeBytes 8 a ++ natToBeBytes 16 p)) % Commitments.STARK_PRIME =
      tv * 2 ^ 192 + a * 2 ^ 128 + p := by
  rw [List.foldl_append, List.foldl_append, htv, foldl_natToBeBytes, foldl_natToBeBytes]
  have ha' : a % 256 ^ 8 = a := Nat.mod_eq_of_lt (by norm_num at ha ⊢; omega)
  have hp' : p % 256 ^ 16 = p := Nat.mod_eq_of_lt (by norm_num at hp ⊢; omega)
  rw [ha', hp']
  have hval : (tv * 256 ^ 8 + a) * 256 ^ 16 + p = tv * 2 ^ 192 + a * 2 ^ 128 + p := by
    norm_num; ring
  rw [hval]
  apply Nat.mod_eq_of_lt
  have : tv * 2 ^ 192 + a * 2 ^ 128 + p < 2 ^ 251 + 17 * 2 ^ 192 + 1 := by
    nlinarith [htvb, ha, hp]
  simpa [Commitments.STARK_PRIME] using this

/-- The L1_GAS resource-bound encoding, in closed arithmetic form. -/
theorem prepare_l1_value (rb : ResourceBoundsMapping)
    (ha : rb.l1_gas.max_amount < 2 ^ 64) (hp : rb.l1_gas.max_price_per_unit < 2 ^ 128) :
    prepare_resource_bound_value rb .L1 =
      0x4c315f474153 * 2 ^ 192 + rb.l1_gas.max_amount * 2 ^ 128 +
        rb.l1_gas.max_price_per_unit := by
  unfold prepare_resource_bound_value feltFromBytesBe
  dsimp only
  rw [buffer_shape L1_GAS (by decide)]
  exact enc_fold L1_GAS 0x4c315f474153 _ _ (by decide) (by decide) ha hp

/-- The L2_GAS resource-bound encoding, in closed arithmetic form. -/
theorem prepare_l2_value (rb : ResourceBoundsMapping)
    (ha : rb.l2_gas.max_amount < 2 ^ 64) (hp : rb.l2_gas.max_price_per_unit < 2 ^ 128) :
    prepare_resource_bound_value rb .L2 =
      0x4c325f474153 * 2 ^ 192 + rb.l2_gas.max_amount * 2 ^ 128 +
        rb.l2_gas.max_price_per_unit := by
  unfold prepare_resource_bound_value feltFromBytesBe
  dsimp only
  rw [buffer_shape L2_GAS (by decide)]
  exact enc_fold L2_GAS 0x4c325f474153 _ _ (by decide) (by decide) ha hp

end ComputeHash

/-! ## Claim theorems -/

/-- C1 — The spec claims that an event whose nonce is already in
`L1MessagingNonces` is skipped and the remaining events of the stream are
still processed.  The code instead does `return Ok(())` (messaging.rs, line
63), terminating the whole worker.  Failing input: nonce 1 already recorded,
stream delivering events with nonces 1 then 2 — the run ends with the state
unchanged, never submitting the (fresh) nonce-2 message to the mempool. -/
theorem C1_duplicate_nonce_terminates_sync :
    Messaging.syncLoop (fun _ => 0) (fun _ => 0)
        [some (.ok (Messaging.mkEvent 1 100)), some (.ok (Messaging.mkEvent 2 101))]
        ⟨[1], ⟨0, 0⟩, []⟩ =
      .ok ⟨[1], ⟨0, 0⟩, []⟩ := by
  rfl

/-- C2 (counterexample) — The spec claims that a cancelled message
(`cancellation_timestamp ≠ 0`) has its nonce recorded, that
`LastSyncedEventBlock` advances past the event, and that the worker then
continues with subsequent events.  Concrete run: events with nonces 5 (at L1
block 10, cancelled) then 6 (at block 11, not cancelled), starting from the
empty state.  The worker records nonce 5 and returns: the cursor stays at
`(0, 0)` (not advanced past block 10) and the nonce-6 event is never
processed (no mempool submission, nonce 6 not recorded). -/
theorem C2_cancelled_message_counterexample :
    Messaging.syncLoop (fun ev => ev.nonce) (fun h => if h = 5 then 12345 else 0)
        [some (.ok (Messaging.mkEvent 5 10)), some (.ok (Messaging.mkEvent 6 11))]
        ⟨[], ⟨0, 0⟩, []⟩ =
      .ok ⟨[5], ⟨0, 0⟩, []⟩ := by
  rfl

/-- C2 (amended) — For every event whose cancellation timestamp is nonzero
and whose nonce is not yet recorded, the worker records the nonce in
`L1MessagingNonces`, submits nothing to the mempool, leaves
`LastSyncedEventBlock` unchanged, and returns from the sync loop without
processing the remaining events of the stream. -/
theorem C2_cancelled_message_amended (getHash : Messaging.CommonMessagingEventData → Messaging.Felt)
    (cancelTs : Messaging.Felt → Messaging.Felt) (ev : Messaging.CommonMessagingEventData)
    (rest : List Messaging.StreamItem) (st : Messaging.WorkerState)
    (hnew : Messaging.hasL1MessagingNonce st ev.nonce = false)
    (hcancel : cancelTs (getHash ev) ≠ 0) :
    Messaging.syncLoop getHash cancelTs (some (.ok ev) :: rest) st =
      .ok { st with nonces := ev.nonce :: st.nonces } := by
  unfold Messaging.syncLoop
  simp only [Messaging.parse_handle_message_transaction, hnew, Bool.false_eq_true, if_false,
    if_pos hcancel, Messaging.handle_cancelled_message, hnew, Messaging.setL1MessagingNonce]

/-- C2 (amended) witness: the cancelled nonce-5 run from the counterexample,
derived by instantiating the amended theorem. -/
theorem C2_cancelled_message_amended_witness :
    Messaging.syncLoop (fun ev => ev.nonce) (fun h => if h = 5 then 12345 else 0)
        [some (.ok (Messaging.mkEvent 5 10)), some (.ok (Messaging.mkEvent 6 11))]
        ⟨[], ⟨0, 0⟩, []⟩ =
      .ok ⟨[5], ⟨0, 0⟩, []⟩ :=
  C2_cancelled_message_amended (fun ev => ev.nonce) (fun h => if h = 5 then 12345 else 0)
    (Messaging.mkEvent 5 10) [some (.ok (Messaging.mkEvent 6 11))] ⟨[], ⟨0, 0⟩, []⟩
    (by decide) (by decide)

/-- C3 (counterexample) — The spec claims the gas-price worker handles the
stale condition by returning a fatal error value and never panics for this
control flow.  At poll time 10000 ms, last update at 0 and current time
200001 ms (elapsed > 10×poll), the loop iteration panics (l1_gas_price.rs,
lines 94–100) and does not return an error value. -/
theorem C3_stale_prices_panic_counterexample :
    (GasPrice.gas_price_worker_iteration 10000 0 200001 true).isPanic = true ∧
      (GasPrice.gas_price_worker_iteration 10000 0 200001 true).isErrorReturn = false := by
  exact ⟨rfl, rfl⟩

/-- C3 (amended) — If no successful update has landed within `10×poll_ms`
(the elapsed time since the last update exceeds ten poll periods), the worker
iteration panics with the elapsed time in the message; it does not return an
error value. -/
theorem C3_stale_prices_amended (poll_time last_update current : Nat)
    (infinite_loop : Bool) (hstale : current - last_update > 10 * poll_time) :
    GasPrice.gas_price_worker_iteration poll_time last_update current infinite_loop =
      .panicked (current - last_update) := by
  unfold GasPrice.gas_price_worker_iteration
  rw [if_pos hstale]

/-- C3 (amended) witness at the concrete stale input. -/
theorem C3_stale_prices_amended_witness :
    GasPrice.gas_price_worker_iteration 10000 0 200001 true =
      .panicked 200001 :=
  C3_stale_prices_amended 10000 0 200001 true (by decide)

/-- C4 — Class visibility: for a class hash stored in the `ClassInfo` column
with declaration block `B`, a query resolved to `BlockN N` returns the class
iff `B ≤ N`; a class present only in the pending overlay is invisible to
numeric queries; and a pending query sees every class stored in the confirmed
column, whatever its declaration block. -/
theorem C4_class_visibility (db : ClassDb.Columns) (h : ClassDb.Felt)
    (B N : Nat) (info : ClassDb.ClassInfo) :
    (db.classInfo h = some (info, .blockN B) →
      (ClassDb.get_class_info db (.blockN N) h = some info ↔ B ≤ N)) ∧
    (db.classInfo h = none →
      ClassDb.get_class_info db (.blockN N) h = none) ∧
    (db.classInfo h = some (info, .blockN B) →
      ClassDb.get_class_info db .pending h ≠ none) ∧
    (∀ storedId, db.pendingClassInfo h = some (info, storedId) →
      ClassDb.get_class_info db .pending h = some info) := by
  refine ⟨fun hstore => ?_, fun hnone => ?_, fun hstore => ?_, fun storedId hpend => ?_⟩
  · unfold ClassDb.get_class_info ClassDb.class_db_get_encoded_kv
    simp only [ClassDb.DbBlockId.isPendingB, Bool.false_eq_true, if_false, hstore]
    by_cases hle : B ≤ N
    · simp [hle]
    · simp [hle]
  · unfold ClassDb.get_class_info ClassDb.class_db_get_encoded_kv
    simp [ClassDb.DbBlockId.isPendingB, hnone]
  · unfold ClassDb.get_class_info ClassDb.class_db_get_encoded_kv
    simp only [ClassDb.DbBlockId.isPendingB, if_true]
    cases hpend : db.pendingClassInfo h with
    | none => simp [hstore]
    | some v => simp
  · unfold ClassDb.get_class_info ClassDb.class_db_get_encoded_kv
    simp [ClassDb.DbBlockId.isPendingB, hpend]

/-- C4 witness: a database with class hash 5 declared at block 3 in the
confirmed column and class hash 9 only in the pending overlay. -/
theorem C4_class_visibility_witness :
    ClassDb.get_class_info
        ⟨fun k => if k = 9 then some (42, .pending) else none,
         fun k => if k = 5 then some (77, .blockN 3) else none⟩
        (.blockN 4) 5 = some 77 :=
  ((C4_class_visibility
      ⟨fun k => if k = 9 then some (42, .pending) else none,
       fun k => if k = 5 then some (77, .blockN 3) else none⟩
      5 3 4 77).1 (by decide)).mpr (by decide)

/-- C5 — `starknet_getStorageAt` error precedence: a missing block yields
`BlockNotFound` whatever the contract; with the block present, a contract
with no recorded class hash yields `ContractNotFound`; otherwise the stored
value is returned, defaulting to zero when the key is absent. -/
theorem C5_get_storage_at_precedence (b : GetStorageAt.Backend)
    (addr key : GetStorageAt.Felt) (id : GetStorageAt.BlockId) :
    (b.containsBlock id = false →
      GetStorageAt.get_storage_at b addr key id = .error .blockNotFound) ∧
    (b.containsBlock id = true → b.getContractClassHashAt id addr = none →
      GetStorageAt.get_storage_at b addr key id = .error .contractNotFound) ∧
    (∀ ch, b.containsBlock id = true → b.getContractClassHashAt id addr = some ch →
      GetStorageAt.get_storage_at b addr key id =
        .ok ((b.getContractStorageAt id addr key).getD 0)) := by
  refine ⟨fun hmiss => ?_, fun hblock hcontract => ?_, fun ch hblock hclass => ?_⟩
  · unfold GetStorageAt.get_storage_at
    simp [hmiss]
  · unfold GetStorageAt.get_storage_at
    simp [hblock, hcontract]
  · unfold GetStorageAt.get_storage_at
    simp [hblock, hclass]

/-- C5 witness: a one-block backend where the contract is deployed and the
key is absent, so the read returns zero. -/
theorem C5_get_storage_at_precedence_witness :
    GetStorageAt.get_storage_at
        ⟨fun id => id = .number 0, fun _ a => if a = 7 then some 99 else none,
         fun _ _ _ => none⟩
        7 1 (.number 0) = .ok 0 :=
  (C5_get_storage_at_precedence
      ⟨fun id => id = .number 0, fun _ a => if a = 7 then some 99 else none,
       fun _ _ _ => none⟩
      7 1 (.number 0)).2.2 99 (by decide) (by decide)

/-- C6 — The computed state root is the contracts-trie root when the
classes-trie root is zero, and otherwise the hash of
`["STARKNET_STATE_V0", contracts_root, classes_root]` (the tag being the
big-endian felt of the ASCII string, `0x535441524b4e45545f53544154455f5630`),
for any hasher `H` — in particular for the `PoseidonHasher` the sync pipeline
instantiates it with. -/
theorem C6_state_root (H : List Commitments.Felt → Commitments.Felt)
    (contracts_root classes_root : Commitments.Felt) :
    Commitments.calculate_state_root H contracts_root classes_root =
      if classes_root = 0 then contracts_root
      else H [0x535441524b4e45545f53544154455f5630, contracts_root, classes_root] := by
  have htag : Commitments.starknet_state_tag = 0x535441524b4e45545f53544154455f5630 := by
    rfl
  unfold Commitments.calculate_state_root
  rw [htag]

/-- C7 — The V3 gas-fields hash is `H [tip, enc(L1_GAS), enc(L2_GAS)]` where
each encoding, read as a big-endian felt, puts the 6-byte resource tag at
bytes `[2:8]` (weight `2^192`), the `u64` max amount at bytes `[8:16]`
(weight `2^128`) and the `u128` max price per unit at bytes `[16:32]`;
`0x4c315f474153` and `0x4c325f474153` are the big-endian values of
`b"L1_GAS"` and `b"L2_GAS"`. -/
theorem C7_v3_gas_hash (H : List ComputeHash.Felt → ComputeHash.Felt) (tip : Nat)
    (rb : ComputeHash.ResourceBoundsMapping)
    (ha1 : rb.l1_gas.max_amount < 2 ^ 64) (hp1 : rb.l1_gas.max_price_per_unit < 2 ^ 128)
    (ha2 : rb.l2_gas.max_amount < 2 ^ 64) (hp2 : rb.l2_gas.max_price_per_unit < 2 ^ 128) :
    ComputeHash.compute_gas_hash H tip rb =
      H [tip,
         0x4c315f474153 * 2 ^ 192 + rb.l1_gas.max_amount * 2 ^ 128 +
           rb.l1_gas.max_price_per_unit,
         0x4c325f474153 * 2 ^ 192 + rb.l2_gas.max_amount * 2 ^ 128 +
           rb.l2_gas.max_price_per_unit] := by
  unfold ComputeHash.compute_gas_hash
  rw [ComputeHash.prepare_l1_value rb ha1 hp1, ComputeHash.prepare_l2_value rb ha2 hp2]

/-- C7 witness: concrete bounds `(3, 7)` for L1 gas and `(2, 9)` for L2 gas
with tip 5, hashed with `List.sum`. -/
theorem C7_v3_gas_hash_witness :
    ComputeHash.compute_gas_hash List.sum 5 ⟨⟨3, 7⟩, ⟨2, 9⟩⟩ =
      List.sum
        [5, 0x4c315f474153 * 2 ^ 192 + 3 * 2 ^ 128 + 7,
         0x4c325f474153 * 2 ^ 192 + 2 * 2 ^ 128 + 9] :=
  C7_v3_gas_hash List.sum 5 ⟨⟨3, 7⟩, ⟨2, 9⟩⟩ (by norm_num) (by norm_num) (by norm_num)
    (by norm_num)

/-- C8 — The spec claims `eth_l1_gas_price` is the last *base fee* of the
fetched fee history.  Failing input: `base_fee_per_gas = [10, 20]`,
`base_fee_per_blob_gas = [5, 7]`.  The update sets `eth_l1_gas_price = 7` —
the last *blob* base fee (`base_fee_per_gas` is never read) — while the last
base fee is 20; the data-gas price is the blob average `(5+7)/2 = 6` as
claimed. -/
theorem C8_gas_price_reads_blob_fee :
    GasPrice.update_gas_price ⟨[10, 20], [5, 7]⟩ ⟨0, 0, 0, 0⟩ = .ok ⟨7, 0, 6, 0⟩ ∧
      ([10, 20] : List Nat).getLast? = some 20 := by
  exact ⟨rfl, rfl⟩

/-- C9 — The blob-fee average in `update_gas_price` divides by the window
length with no zero guard: whenever `base_fee_per_blob_gas` is non-empty the
update is well-defined (returns written prices), and on the empty list the
division-by-zero (panic) branch is taken rather than an error return. -/
theorem C9_blob_average_division (fh : GasPrice.FeeHistory) (gp : GasPrice.GasPrices) :
    (fh.base_fee_per_blob_gas ≠ [] →
      (GasPrice.update_gas_price fh gp).isOk = true) ∧
    (fh.base_fee_per_blob_gas = [] →
      GasPrice.update_gas_price fh gp = .panicked) := by
  obtain ⟨bf, blob⟩ := fh
  constructor
  · intro hne
    unfold GasPrice.update_gas_price
    simp only
    have hpos : 0 < blob.length := List.length_pos.mpr hne
    have hwin : (blob.drop (max blob.length 300 - 300)).length ≠ 0 := by
      rw [List.length_drop]
      omega
    rw [if_neg hwin]
    cases hlast : blob.getLast? with
    | none => exact absurd (List.getLast?_eq_none_iff.mp hlast) hne
    | some v => rfl
  · intro hempty
    subst hempty
    unfold GasPrice.update_gas_price
    norm_num

/-- C9 witness: a two-entry blob-fee list yields a successful update; the
empty list reaches the division-by-zero branch. -/
theorem C9_blob_average_division_witness :
    (GasPrice.update_gas_price ⟨[], [5, 7]⟩ ⟨0, 0, 0, 0⟩).isOk = true ∧
      GasPrice.update_gas_price ⟨[], []⟩ ⟨0, 0, 0, 0⟩ = .panicked :=
  ⟨(C9_blob_average_division ⟨[], [5, 7]⟩ ⟨0, 0, 0, 0⟩).1 (by decide),
   (C9_blob_average_division ⟨[], []⟩ ⟨0, 0, 0, 0⟩).2 rfl⟩

/-- C10 — The two indexings of `ServiceMonitor`'s 8-slot service array are
inconsistent: `with` stores a service at `leading_zeros(id as u8)`, which is
8 — out of bounds — for `Monitor` (value 0); the restart branch of `start`
indexes by `svc as usize`, which is out of bounds (≥ 8) for every service
with numeric value ≥ 8 (`BlockProduction, RpcUser, RpcAdmin, Gateway,
Telemetry`) and disagrees with the storing index for every service with
value < 8. -/
theorem C10_service_monitor_indexing :
    (¬ ServiceMonitor.withIndex .monitor < ServiceMonitor.SERVICE_COUNT) ∧
    (∀ svc : ServiceMonitor.MadaraService, 8 ≤ svc.value →
      ¬ ServiceMonitor.restartIndex svc < ServiceMonitor.SERVICE_COUNT) ∧
    (∀ svc : ServiceMonitor.MadaraService, svc.value < 8 →
      ServiceMonitor.restartIndex svc ≠ ServiceMonitor.withIndex svc) := by
  refine ⟨by decide, ?_, ?_⟩
  · intro svc hge
    cases svc <;> simp_all [ServiceMonitor.MadaraService.value, ServiceMonitor.restartIndex,
      ServiceMonitor.SERVICE_COUNT]
  · intro svc hlt
    cases svc <;> simp_all [ServiceMonitor.MadaraService.value, ServiceMonitor.restartIndex,
      ServiceMonitor.withIndex, ServiceMonitor.leadingZeros8, ServiceMonitor.SERVICE_COUNT,
      Nat.log2]

/-- C10 witness: `BlockProduction` (value 8) is looked up out of bounds by
the restart branch, and `Database` (value 1, stored at index 7) is looked up
at index 1. -/
theorem C10_service_monitor_indexing_witness :
    (¬ ServiceMonitor.restartIndex .blockProduction < ServiceMonitor.SERVICE_COUNT) ∧
      ServiceMonitor.restartIndex .database ≠ ServiceMonitor.withIndex .database :=
  ⟨C10_service_monitor_indexing.2.1 .blockProduction (by decide),
   C10_service_monitor_indexing.2.2 .database (by decide)⟩
